import Mathlib

set_option synthInstance.maxSize 512

/-!
Verification of the adaptive polling / staleness engine of a transit
dashboard application.  The development shallowly embeds the relevant
Python modules:

* `path_data.py` — feed parsing (`parse_line_colors`, `parse_station_data`);
* `app.py` (`FetchThread`) — adaptive delay and failure backoff;
* `app.py` (`MainWindow`) — display state, fingerprint tracking and the
  staleness evaluator (`on_data_received`, `on_fetch_failed`,
  `update_status_pill`).

Python strings are modelled as `String` / `List Char`; `datetime`
instants as `Int` (epoch seconds, only comparisons and differences are
used by the code); Python floats produced by `base * jitter` as `ℚ`
(the code only multiplies, compares and takes `max`); the truncation
`int(x * 1.5)` on a non-negative integer `x` is `3 * x / 2` in `ℕ`.
-/

/-! ### Character-level models of the Python `str` operations used -/

/-- Python `str.strip()`: drop whitespace from both ends. -/
def pyStrip (l : List Char) : List Char :=
  ((l.dropWhile Char.isWhitespace).reverse.dropWhile Char.isWhitespace).reverse

/-- Python `str.lstrip("#")`: drop leading `'#'` characters. -/
def pyLstripHash (l : List Char) : List Char :=
  l.dropWhile (· == '#')

/-- Python `"".join(ch * 2 for ch in value)`: double every character. -/
def doubleChars (l : List Char) : List Char :=
  l.flatMap (fun c => [c, c])

/-- Python `str.split(",")`: split at every comma, keeping empty parts. -/
def splitOnComma : List Char → List (List Char)
  | [] => [[]]
  | c :: rest =>
    let r := splitOnComma rest
    if c = ',' then [] :: r
    else
      match r with
      | [] => [[c]]
      | h :: t => (c :: h) :: t

/-- Python `str.strip()` on a `String`. -/
def pyStripStr (s : String) : String :=
  String.mk (pyStrip s.toList)

/-! ### `path_data.py`: colors -/

/-- `_normalize_color` from `path_data.py`, on the character list. -/
def normalizeColorChars (value : List Char) : List Char :=
  let v := pyLstripHash (pyStrip value)
  if v.length = 0 then "#999999".toList
  else
    let v2 := if v.length = 3 then doubleChars v else v
    '#' :: v2.map Char.toUpper

/-- `_normalize_color` from `path_data.py`. -/
def normalize_color (value : String) : String :=
  String.mk (normalizeColorChars value.toList)

/-- `parts = [part.strip() for part in raw.split(",") if part.strip()]`
from `parse_line_colors`. -/
def partsOf (raw : String) : List (List Char) :=
  ((splitOnComma raw.toList).map pyStrip).filter (· ≠ [])

/-- `parse_line_colors` from `path_data.py`. -/
def parse_line_colors (raw : String) : List String :=
  if raw = "" then ["#999999"]
  else if partsOf raw = [] then ["#999999"]
  else ((partsOf raw).map (fun p => String.mk (normalizeColorChars p))).take 2

/-! ### `path_data.py`: station snapshots -/

/-- Instants (`datetime`) are modelled as epoch seconds. -/
abbrev Time := Int

/-- `TrainMessage` dataclass from `path_data.py`. -/
structure TrainMessage where
  label : String
  target : String
  seconds_to_arrival : Int
  arrival_message : String
  line_colors : List String
  headsign : String
  last_updated : Option Time
deriving DecidableEq

/-- `StationData` dataclass from `path_data.py`. -/
structure StationData where
  messages : List TrainMessage
  last_updated : Option Time
deriving DecidableEq

/-- Result of `int(raw_msg.get("secondsToArrival", "0"))`: the field is
absent (the default `"0"` parses to `0`), parses to an integer, or
raises `ValueError`/`TypeError` (the message is skipped). -/
inductive RawSeconds where
  | absent : RawSeconds
  | value : Int → RawSeconds
  | malformed : RawSeconds
deriving DecidableEq

/-- One raw feed message.  String fields model `str(raw_msg.get(k, ""))`
(absent fields are the empty string); `lastUpdated` models the result
of `parse_last_updated` (absent or unparsable both give `none`). -/
structure RawMessage where
  target : String
  secondsToArrival : RawSeconds
  arrivalTimeMessage : String
  lineColor : String
  headSign : String
  lastUpdated : Option Time
deriving DecidableEq

/-- One raw destination entry: `{"label": ..., "messages": [...]}`. -/
structure RawDestination where
  label : String
  messages : List RawMessage
deriving DecidableEq

/-- One raw station entry of the `results` list. -/
structure RawEntry where
  consideredStation : Option String
  destinations : List RawDestination
deriving DecidableEq

/-- The `results` value: either not a list, or a list of entries. -/
inductive RawResults where
  | notList : RawResults
  | ofList : List RawEntry → RawResults
deriving DecidableEq

/-- The whole payload: not a dict, or a dict with an optional
`results` value. -/
inductive RawPayload where
  | notDict : RawPayload
  | dict : Option RawResults → RawPayload
deriving DecidableEq

/-- Building one `TrainMessage` from a raw message (the loop body of
`parse_station_data`); `none` when the seconds field is malformed. -/
def buildMessage (label : String) (r : RawMessage) : Option TrainMessage :=
  match r.secondsToArrival with
  | RawSeconds.malformed => none
  | RawSeconds.absent => some
      { label := label
        target := pyStripStr r.target
        seconds_to_arrival := 0
        arrival_message := pyStripStr r.arrivalTimeMessage
        line_colors := parse_line_colors r.lineColor
        headsign := pyStripStr r.headSign
        last_updated := r.lastUpdated }
  | RawSeconds.value v => some
      { label := label
        target := pyStripStr r.target
        seconds_to_arrival := v
        arrival_message := pyStripStr r.arrivalTimeMessage
        line_colors := parse_line_colors r.lineColor
        headsign := pyStripStr r.headSign
        last_updated := r.lastUpdated }

/-- The nested `for destination … for raw_msg …` loops of
`parse_station_data`, before sorting. -/
def collectMessages (dests : List RawDestination) : List TrainMessage :=
  dests.flatMap (fun d => d.messages.filterMap (buildMessage d.label))

/-- The ordering key of `messages.sort(key=lambda m: m.seconds_to_arrival)`. -/
def msgLE (a b : TrainMessage) : Prop :=
  a.seconds_to_arrival ≤ b.seconds_to_arrival

instance : DecidableRel msgLE := fun a b => by
  unfold msgLE; infer_instance

instance : IsTotal TrainMessage msgLE :=
  ⟨fun a b => le_total a.seconds_to_arrival b.seconds_to_arrival⟩

instance : IsTrans TrainMessage msgLE :=
  ⟨fun _ _ _ hab hbc => le_trans hab hbc⟩

/-- `max((msg.last_updated for msg in messages if msg.last_updated), default=None)`:
iterated maximum of a list of instants, `none` on the empty list. -/
def foldMaxAux : Option Time → List Time → Option Time
  | acc, [] => acc
  | acc, t :: rest =>
    foldMaxAux (some (match acc with | none => t | some a => max a t)) rest

/-- Top-level timestamp of a snapshot: maximum of the present
per-message timestamps. -/
def maxTimestamp (msgs : List TrainMessage) : Option Time :=
  foldMaxAux none (msgs.filterMap TrainMessage.last_updated)

/-- The messages `parse_station_data` collects before sorting (empty in
every early-return branch). -/
def collectedOf (payload : RawPayload) (code : String) : List TrainMessage :=
  match payload with
  | RawPayload.dict (some (RawResults.ofList entries)) =>
    match entries.find? (fun e => decide (e.consideredStation = some code)) with
    | some entry => collectMessages entry.destinations
    | none => []
  | _ => []

/-- `parse_station_data` from `path_data.py`. -/
def parse_station_data (payload : RawPayload) (code : String) : StationData :=
  match payload with
  | RawPayload.dict (some (RawResults.ofList entries)) =>
    match entries.find? (fun e => decide (e.consideredStation = some code)) with
    | some entry =>
      let msgs := List.insertionSort msgLE (collectMessages entry.destinations)
      { messages := msgs, last_updated := maxTimestamp msgs }
    | none => { messages := [], last_updated := none }
  | _ => { messages := [], last_updated := none }

/-- `top_messages` from `path_data.py`. -/
def top_messages (messages : List TrainMessage) (limit : Int) : List TrainMessage :=
  messages.take (max 0 limit).toNat

/-! ### `config.py` -/

/-- `AppConfig` dataclass from `config.py`.  Interval and TTL fields are
non-negative seconds (`ℕ`); arrival thresholds are compared against
`seconds_to_arrival : ℤ`; `jitter_ratio` is a ratio (`ℚ`). -/
structure AppConfig where
  station : String
  poll_baseline_seconds : Nat
  poll_aggressive_seconds : Nat
  poll_relaxed_seconds : Nat
  poll_background_seconds : Nat
  aggressive_threshold_seconds : Int
  relaxed_threshold_seconds : Int
  jitter_ratio : ℚ
  ttl_seconds : Nat
  ttl_aggressive_seconds : Nat
  stale_no_change_polls : Nat
  stale_failure_polls : Nat
  stale_after_seconds : Nat
  max_cards : Nat
deriving DecidableEq

/-- `DEFAULT_CONFIG` from `config.py`. -/
def defaultConfig : AppConfig :=
  { station := "HOB"
    poll_baseline_seconds := 30
    poll_aggressive_seconds := 15
    poll_relaxed_seconds := 90
    poll_background_seconds := 300
    aggressive_threshold_seconds := 300
    relaxed_threshold_seconds := 900
    jitter_ratio := 1 / 10
    ttl_seconds := 45
    ttl_aggressive_seconds := 20
    stale_no_change_polls := 3
    stale_failure_polls := 3
    stale_after_seconds := 120
    max_cards := 5 }

/-! ### `app.py`: the feed poller (`FetchThread`) -/

/-- `min(msg.seconds_to_arrival for msg in data.messages)`: `none` on an
empty message list. -/
def soonestOf : List TrainMessage → Option Int
  | [] => none
  | m :: rest =>
    some (rest.foldl (fun a x => min a x.seconds_to_arrival) m.seconds_to_arrival)

/-- The base interval chosen by `FetchThread._next_delay`. -/
def next_delay_base (cfg : AppConfig) (data : StationData) : Nat :=
  match soonestOf data.messages with
  | none => cfg.poll_background_seconds
  | some soonest =>
    if soonest < cfg.aggressive_threshold_seconds then cfg.poll_aggressive_seconds
    else if soonest > cfg.relaxed_threshold_seconds then cfg.poll_relaxed_seconds
    else cfg.poll_baseline_seconds

/-- `FetchThread._next_delay`: `u` models the sampled
`random.uniform(-jitter_ratio, jitter_ratio)`, so the multiplicative
factor is `1 + u`; the result is `max(5, base * (1 + u))`. -/
def next_delay (cfg : AppConfig) (data : StationData) (u : ℚ) : ℚ :=
  max 5 ((next_delay_base cfg data : ℚ) * (1 + u))

/-- The failure branch of `FetchThread.run` (lines 113–116): from the
current `_backoff_seconds`, the delay slept and the updated backoff. -/
def failureStep (b : Nat) : Nat × Nat :=
  let b1 := if b < 5 then 5 else b
  (min 60 b1, min 60 (b1 * 2))

/-- The backoff value stored by the success branch of `FetchThread.run`
(line 108): `self._backoff_seconds = self.config.poll_baseline_seconds`. -/
def successBackoff (cfg : AppConfig) : Nat :=
  cfg.poll_baseline_seconds

/-- Delays produced by `n` consecutive failures starting from backoff `b`. -/
def failureDelays : Nat → Nat → List Nat
  | 0, _ => []
  | n + 1, b => (failureStep b).1 :: failureDelays n (failureStep b).2

/-! ### `app.py`: display state (`MainWindow`) -/

/-- The fingerprint built by `MainWindow._build_signature`. -/
abbrev Signature := List (String × String × Int × String × List String)

/-- The display state owned by `MainWindow` (lines 401–406). -/
structure DisplayState where
  latest_data : Option StationData
  last_fetch_ok : Bool
  last_successful_fetch : Option Time
  last_signature : Option Signature
  unchanged_polls : Nat
  consecutive_failures : Nat
deriving DecidableEq

/-- Initial display state (`MainWindow.__init__`, lines 401–406). -/
def initialDisplayState : DisplayState :=
  { latest_data := none
    last_fetch_ok := false
    last_successful_fetch := none
    last_signature := none
    unchanged_polls := 0
    consecutive_failures := 0 }

/-- `MainWindow._build_signature`. -/
def build_signature (data : Option StationData) : Signature :=
  match data with
  | none => []
  | some d =>
    d.messages.map fun m =>
      (m.headsign, m.target, m.seconds_to_arrival, m.arrival_message, m.line_colors)

/-- `MainWindow.on_data_received`: `now` is the instant stored as
`last_successful_fetch` (`datetime.now(timezone.utc)`). -/
def on_data_received (s : DisplayState) (data : StationData) (now : Time) :
    DisplayState :=
  let sig := build_signature (some data)
  let matched := s.last_signature = some sig
  { latest_data := some data
    last_fetch_ok := true
    consecutive_failures := 0
    unchanged_polls := if matched then s.unchanged_polls + 1 else 0
    last_signature := if matched then s.last_signature else some sig
    last_successful_fetch := some now }

/-- `MainWindow.on_fetch_failed` (state mutation only; the error string
is logged and otherwise unused). -/
def on_fetch_failed (s : DisplayState) (_errorMessage : String) : DisplayState :=
  { s with last_fetch_ok := false
           consecutive_failures := s.consecutive_failures + 1 }

/-! ### `app.py`: the staleness evaluator (`MainWindow.update_status_pill`) -/

/-- The effective TTL computed in `update_status_pill` (lines 757–764).
`int(self.config.poll_baseline_seconds * 1.5)` is `3 * b / 2` in `ℕ`. -/
def effectiveTTL (cfg : AppConfig) (data : Option StationData) : Nat :=
  match data with
  | some d =>
    match soonestOf d.messages with
    | some soonest =>
      if soonest < cfg.aggressive_threshold_seconds then cfg.ttl_aggressive_seconds
      else max cfg.ttl_seconds (3 * cfg.poll_baseline_seconds / 2)
    | none => cfg.ttl_seconds
  | none => cfg.ttl_seconds

/-- `stale_due_age` (lines 757, 765–767): `True` before the first
successful fetch, otherwise `age > ttl_seconds`. -/
def staleDueAge (cfg : AppConfig) (data : Option StationData)
    (lastFetch : Option Time) (now : Time) : Bool :=
  match lastFetch with
  | none => true
  | some t => decide ((now - t) > (effectiveTTL cfg data : Int))

/-- `has_messages = bool(data and data.messages)` (line 777). -/
def hasMessages (data : Option StationData) : Bool :=
  match data with
  | none => false
  | some d => !d.messages.isEmpty

/-- The `is_stale` value computed by `update_status_pill` (lines 753–780). -/
def is_stale (cfg : AppConfig) (s : DisplayState) (now : Time) : Bool :=
  let stale_due_age := staleDueAge cfg s.latest_data s.last_successful_fetch now
  let stale_no_change := decide (s.unchanged_polls ≥ cfg.stale_no_change_polls)
  let stale_failures := decide (s.consecutive_failures ≥ cfg.stale_failure_polls)
  (!s.last_fetch_ok) || stale_due_age || (!hasMessages s.latest_data) ||
    stale_no_change || stale_failures

/-! ### Spec-side definitions (from the spec's words, for comparison) -/

/-- The staleness disjunction exactly as the spec's words state it
(section 4.2 step 6, with step 2's age clause). -/
def specIsStale (cfg : AppConfig) (s : DisplayState) (now : Time) : Prop :=
  s.last_fetch_ok = false
  ∨ (∀ t, s.last_successful_fetch = some t →
      (now - t) > (effectiveTTL cfg s.latest_data : Int))
  ∨ (s.latest_data = none ∨ ∃ d, s.latest_data = some d ∧ d.messages = [])
  ∨ cfg.stale_no_change_polls ≤ s.unchanged_polls
  ∨ cfg.stale_failure_polls ≤ s.consecutive_failures

/-- The effective TTL as the spec's words describe it (section 4.2
step 1): widened to at least `⌊1.5 × baseline⌋` in every non-aggressive
case, including an absent or empty snapshot. -/
def specEffectiveTTL (cfg : AppConfig) (data : Option StationData) : Nat :=
  match data with
  | some d =>
    match soonestOf d.messages with
    | some soonest =>
      if soonest < cfg.aggressive_threshold_seconds then cfg.ttl_aggressive_seconds
      else max cfg.ttl_seconds (3 * cfg.poll_baseline_seconds / 2)
    | none => max cfg.ttl_seconds (3 * cfg.poll_baseline_seconds / 2)
  | none => max cfg.ttl_seconds (3 * cfg.poll_baseline_seconds / 2)

/-! ### Concrete fixtures used by scenarios, witnesses and counterexamples -/

/-- A message arriving in 120 seconds, as parsed from the feed. -/
def msgWTC : TrainMessage :=
  { label := "ToNY"
    target := "WTC"
    seconds_to_arrival := 120
    arrival_message := "2 min"
    line_colors := ["#4D92FB"]
    headsign := "World Trade Center"
    last_updated := some 160 }

/-- A message arriving in 300 seconds, as parsed from the feed. -/
def msg33S : TrainMessage :=
  { label := "ToNY"
    target := "33S"
    seconds_to_arrival := 300
    arrival_message := "5 min"
    line_colors := ["#4D92FB", "#FF9900"]
    headsign := "33rd Street"
    last_updated := some 100 }

/-- A snapshot whose soonest arrival is 120 seconds away. -/
def snapWTC : StationData :=
  { messages := [msgWTC], last_updated := some 160 }

/-- A raw feed message with `secondsToArrival` 300. -/
def raw33S : RawMessage :=
  { target := "33S"
    secondsToArrival := RawSeconds.value 300
    arrivalTimeMessage := "5 min"
    lineColor := "4D92FB,FF9900"
    headSign := "33rd Street"
    lastUpdated := some 100 }

/-- A raw feed message with `secondsToArrival` 120. -/
def rawWTC : RawMessage :=
  { target := "WTC"
    secondsToArrival := RawSeconds.value 120
    arrivalTimeMessage := "2 min"
    lineColor := "4D92FB"
    headSign := "World Trade Center"
    lastUpdated := some 160 }

/-- A raw feed message whose `secondsToArrival` does not parse as an
integer. -/
def rawBad : RawMessage :=
  { target := "NWK"
    secondsToArrival := RawSeconds.malformed
    arrivalTimeMessage := "Delayed"
    lineColor := "FF9900"
    headSign := "Newark"
    lastUpdated := none }

/-- A payload for station `"HOB"` holding two messages, feed order
300 then 120. -/
def hobPayload : RawPayload :=
  RawPayload.dict (some (RawResults.ofList
    [{ consideredStation := some "HOB"
       destinations := [{ label := "ToNY", messages := [raw33S, rawWTC] }] }]))

/-- A payload for station `"HOB"` with one malformed and one good
message. -/
def mixedPayload : RawPayload :=
  RawPayload.dict (some (RawResults.ofList
    [{ consideredStation := some "HOB"
       destinations := [{ label := "ToNY", messages := [rawBad, rawWTC] }] }]))

/-- A configuration whose `1.5 × baseline` widening (60) exceeds its
baseline TTL (45). -/
def cfgWide : AppConfig :=
  { defaultConfig with poll_baseline_seconds := 40 }

/-- The hexadecimal digits, lowercase and uppercase. -/
def hexDigits : List Char :=
  "0123456789abcdefABCDEF".toList

/-- The uppercase hexadecimal digits. -/
def upperHexDigits : List Char :=
  "0123456789ABCDEF".toList

/-! ### Helper lemmas: character lists -/

lemma dropWhile_eq_self_of_all {f : Char → Bool} :
    ∀ l : List Char, (∀ c ∈ l, f c = false) → l.dropWhile f = l := by
  intro l h
  cases l with
  | nil => rfl
  | cons a t =>
    rw [List.dropWhile_cons, h a (List.mem_cons_self a t)]
    simp

lemma pyStrip_eq_self {l : List Char}
    (h : ∀ c ∈ l, Char.isWhitespace c = false) : pyStrip l = l := by
  unfold pyStrip
  rw [dropWhile_eq_self_of_all l h,
      dropWhile_eq_self_of_all l.reverse (fun c hc => h c (List.mem_reverse.mp hc)),
      List.reverse_reverse]

lemma pyLstripHash_eq_self {l : List Char}
    (h : ∀ c ∈ l, (c == '#') = false) : pyLstripHash l = l :=
  dropWhile_eq_self_of_all l h

lemma doubleChars_length (l : List Char) : (doubleChars l).length = 2 * l.length := by
  induction l with
  | nil => rfl
  | cons a t ih =>
    simp only [doubleChars, List.flatMap_cons] at ih ⊢
    simp [ih]
    omega

lemma mem_doubleChars {c : Char} :
    ∀ {l : List Char}, c ∈ doubleChars l → c ∈ l := by
  intro l
  induction l with
  | nil => intro h; exact absurd h (by simp [doubleChars])
  | cons a t ih =>
    intro h
    simp only [doubleChars, List.flatMap_cons, List.mem_append, List.mem_cons] at h
    rcases h with (rfl | rfl | h) | h
    · exact List.mem_cons_self _ _
    · exact List.mem_cons_self _ _
    · exact absurd h (List.not_mem_nil c)
    · exact List.mem_cons_of_mem a (ih h)

lemma hexDigits_facts :
    ∀ c ∈ hexDigits, Char.isWhitespace c = false ∧ (c == '#') = false ∧
      Char.toUpper c ∈ upperHexDigits := by decide

/-! ### Helper lemmas: the iterated maximum -/

lemma foldMaxAux_some (l : List Time) :
    ∀ a : Time, ∃ m, foldMaxAux (some a) l = some m ∧ (m = a ∨ m ∈ l) ∧
      a ≤ m ∧ ∀ u ∈ l, u ≤ m := by
  induction l with
  | nil =>
    intro a
    exact ⟨a, rfl, Or.inl rfl, le_refl a, by simp⟩
  | cons t rest ih =>
    intro a
    obtain ⟨m, hm, hmem, hle, hub⟩ := ih (max a t)
    refine ⟨m, hm, ?_, le_trans (le_max_left a t) hle, ?_⟩
    · rcases hmem with h | h
      · rcases max_choice a t with hc | hc
        · exact Or.inl (h.trans hc)
        · exact Or.inr (by rw [h, hc]; exact List.mem_cons_self t rest)
      · exact Or.inr (List.mem_cons_of_mem t h)
    · intro u hu
      rcases List.mem_cons.mp hu with rfl | hu
      · exact le_trans (le_max_right a u) hle
      · exact hub u hu

lemma maxTimestamp_none_iff (msgs : List TrainMessage) :
    maxTimestamp msgs = none ↔ msgs.filterMap TrainMessage.last_updated = [] := by
  unfold maxTimestamp
  cases h : msgs.filterMap TrainMessage.last_updated with
  | nil => simp [foldMaxAux]
  | cons t rest =>
    obtain ⟨m, hm, -, -, -⟩ := foldMaxAux_some rest t
    simp [foldMaxAux, hm]

lemma maxTimestamp_some_iff (msgs : List TrainMessage) (t : Time) :
    maxTimestamp msgs = some t ↔
      (t ∈ msgs.filterMap TrainMessage.last_updated ∧
        ∀ u ∈ msgs.filterMap TrainMessage.last_updated, u ≤ t) := by
  unfold maxTimestamp
  cases h : msgs.filterMap TrainMessage.last_updated with
  | nil => simp [foldMaxAux]
  | cons a rest =>
    obtain ⟨m, hm, hmem, ham, hub⟩ := foldMaxAux_some rest a
    have hm' : foldMaxAux none (a :: rest) = some m := by
      simpa [foldMaxAux] using hm
    rw [hm']
    constructor
    · rintro hmt
      have : m = t := by injection hmt
      subst this
      refine ⟨?_, ?_⟩
      · rcases hmem with rfl | hmem
        · exact List.mem_cons_self m rest
        · exact List.mem_cons_of_mem a hmem
      · intro u hu
        rcases List.mem_cons.mp hu with rfl | hu
        · exact ham
        · exact hub u hu
    · rintro ⟨htmem, htub⟩
      have h1 : m ≤ t := by
        rcases hmem with rfl | hmem
        · exact htub m (List.mem_cons_self m rest)
        · exact htub m (List.mem_cons_of_mem a hmem)
      have h2 : t ≤ m := by
        rcases List.mem_cons.mp htmem with rfl | htmem
        · exact ham
        · exact hub t htmem
      rw [le_antisymm h1 h2]

/-! ### Helper lemmas: `parse_station_data` -/

lemma parse_station_data_eq (payload : RawPayload) (code : String) :
    parse_station_data payload code =
      { messages := List.insertionSort msgLE (collectedOf payload code)
        last_updated :=
          maxTimestamp (List.insertionSort msgLE (collectedOf payload code)) } := by
  unfold parse_station_data collectedOf
  cases payload with
  | notDict => simp [List.insertionSort, maxTimestamp, List.filterMap, foldMaxAux]
  | dict oresults =>
    cases oresults with
    | none => simp [List.insertionSort, maxTimestamp, List.filterMap, foldMaxAux]
    | some results =>
      cases results with
      | notList => simp [List.insertionSort, maxTimestamp, List.filterMap, foldMaxAux]
      | ofList entries =>
        cases hf : entries.find? (fun e => decide (e.consideredStation = some code)) with
        | none => simp [hf, List.insertionSort, maxTimestamp, List.filterMap, foldMaxAux]
        | some entry => simp [hf]

/-! ### Claim C7 -/

/-- C7: for every payload and station code, `parse_station_data` returns
messages sorted ascending by seconds-to-arrival that are a permutation of
the messages collected from the feed (seconds values unchanged), and a
top-level timestamp that is exactly the maximum of the per-message
timestamps present (absent when none are); the `"HOB"` payload with
seconds 300 and 120 yields messages ordered `[120, 300]` with soonest 120. -/
theorem C7_snapshot_invariants :
    (∀ payload code,
      List.Pairwise msgLE (parse_station_data payload code).messages)
    ∧ (∀ payload code,
        (parse_station_data payload code).messages.Perm (collectedOf payload code))
    ∧ (∀ payload code,
        ((parse_station_data payload code).last_updated = none ↔
          (parse_station_data payload code).messages.filterMap
            TrainMessage.last_updated = []))
    ∧ (∀ payload code t,
        ((parse_station_data payload code).last_updated = some t ↔
          (t ∈ (parse_station_data payload code).messages.filterMap
              TrainMessage.last_updated ∧
            ∀ u ∈ (parse_station_data payload code).messages.filterMap
              TrainMessage.last_updated, u ≤ t)))
    ∧ (parse_station_data hobPayload "HOB").messages.map
        TrainMessage.seconds_to_arrival = [120, 300]
    ∧ soonestOf (parse_station_data hobPayload "HOB").messages = some 120 := by
  refine ⟨?_, ?_, ?_, ?_, by decide, by decide⟩
  · intro payload code
    rw [parse_station_data_eq]
    exact List.sorted_insertionSort msgLE _
  · intro payload code
    rw [parse_station_data_eq]
    exact List.perm_insertionSort msgLE _
  · intro payload code
    rw [parse_station_data_eq]
    exact maxTimestamp_none_iff _
  · intro payload code t
    rw [parse_station_data_eq]
    exact maxTimestamp_some_iff _ t

/-- Witness for C7: its sortedness clause applied to the concrete
`"HOB"` payload. -/
theorem C7_snapshot_invariants_witness :
    List.Pairwise msgLE (parse_station_data hobPayload "HOB").messages :=
  C7_snapshot_invariants.1 hobPayload "HOB"

/-! ### Claim C8 -/

/-- C8: `parse_station_data` total-function behaviour on the degenerate
payload shapes: a non-dict payload, an absent or non-list `results`, or
a `results` list without the requested station code all yield the empty
snapshot; a malformed per-message `secondsToArrival` skips only that
message (the mixed payload keeps its one well-formed message). -/
theorem C8_parse_error_handling :
    (∀ code, parse_station_data RawPayload.notDict code =
      { messages := [], last_updated := none })
    ∧ (∀ code, parse_station_data (RawPayload.dict none) code =
        { messages := [], last_updated := none })
    ∧ (∀ code, parse_station_data (RawPayload.dict (some RawResults.notList)) code =
        { messages := [], last_updated := none })
    ∧ (∀ code entries, (∀ e ∈ entries, e.consideredStation ≠ some code) →
        parse_station_data (RawPayload.dict (some (RawResults.ofList entries))) code =
          { messages := [], last_updated := none })
    ∧ (∀ label r, r.secondsToArrival = RawSeconds.malformed →
        buildMessage label r = none)
    ∧ (parse_station_data mixedPayload "HOB").messages.map TrainMessage.target =
        ["WTC"]
    ∧ (parse_station_data mixedPayload "HOB").messages.length = 1 := by
  refine ⟨fun code => rfl, fun code => rfl, fun code => rfl, ?_, ?_, by decide, by decide⟩
  · intro code entries h
    have hf : entries.find? (fun e => decide (e.consideredStation = some code)) = none := by
      rw [List.find?_eq_none]
      intro e he
      simpa using h e he
    simp [parse_station_data, hf]
  · intro label r h
    unfold buildMessage
    rw [h]

/-- Witness for C8: the station-missing clause at an empty `results`
list and the malformed-seconds clause at a concrete raw message. -/
theorem C8_parse_error_handling_witness :
    parse_station_data (RawPayload.dict (some (RawResults.ofList []))) "HOB" =
      { messages := [], last_updated := none } ∧
    buildMessage "ToNY" rawBad = none :=
  ⟨C8_parse_error_handling.2.2.2.1 "HOB" [] (by simp),
   C8_parse_error_handling.2.2.2.2.1 "ToNY" rawBad rfl⟩

/-! ### Claim C9 -/

/-- C9 counterexample: the claim says every returned value is a
normalized 6-hex-digit RGB value prefixed with `"#"` (hence 7 characters
long), but `_normalize_color` neither validates hex digits nor enforces
a length: the 4-digit input `"ABCD"` is returned as the 5-character
value `"#ABCD"`. -/
theorem C9_counterexample :
    parse_line_colors "ABCD" = ["#ABCD"] ∧ "#ABCD".length ≠ 7 := by decide

/-- C9 (amended): `parse_line_colors` returns one or two values; the
single neutral gray `"#999999"` when the input is absent (empty) or
blank; every other value is `"#"` followed by the uppercased characters
of a stripped comma-part (3-character parts doubled per character), and
is a normalized 6-hex-digit uppercase RGB value whenever that part
consists of 3 or 6 hexadecimal digits — no hex validation or length
normalization happens for other inputs. -/
theorem C9_line_colors_amended :
    (∀ raw, 1 ≤ (parse_line_colors raw).length ∧ (parse_line_colors raw).length ≤ 2)
    ∧ parse_line_colors "" = ["#999999"]
    ∧ parse_line_colors "   " = ["#999999"]
    ∧ parse_line_colors "," = ["#999999"]
    ∧ (∀ raw c, c ∈ parse_line_colors raw →
        c = "#999999" ∨ ∃ p ∈ splitOnComma raw.toList,
          pyStrip p ≠ [] ∧ c = String.mk (normalizeColorChars (pyStrip p)))
    ∧ (∀ p : List Char, (∀ c ∈ p, c ∈ hexDigits) → (p.length = 3 ∨ p.length = 6) →
        ∃ rest, normalizeColorChars p = '#' :: rest ∧ rest.length = 6 ∧
          ∀ c ∈ rest, c ∈ upperHexDigits) := by
  refine ⟨?_, by decide, by decide, by decide, ?_, ?_⟩
  · intro raw
    by_cases h0 : raw = ""
    · simp [parse_line_colors, h0]
    · by_cases h1 : partsOf raw = []
      · simp [parse_line_colors, h0, h1]
      · have hpos : 0 < (partsOf raw).length := List.length_pos.mpr h1
        simp only [parse_line_colors, h0, if_false, h1, List.length_take,
          List.length_map]
        omega
  · intro raw c hc
    by_cases h0 : raw = ""
    · simp [parse_line_colors, h0] at hc
      exact Or.inl hc
    · by_cases h1 : partsOf raw = []
      · simp [parse_line_colors, h0, h1] at hc
        exact Or.inl hc
      · simp only [parse_line_colors, h0, if_false, h1] at hc
        have hc' := List.mem_of_mem_take hc
        obtain ⟨p, hp, rfl⟩ := List.mem_map.mp hc'
        have hp' := List.mem_filter.mp hp
        obtain ⟨q, hq, rfl⟩ := List.mem_map.mp hp'.1
        refine Or.inr ⟨q, hq, ?_, rfl⟩
        simpa using hp'.2
  · intro p hhex hlen
    have hws : ∀ c ∈ p, Char.isWhitespace c = false :=
      fun c hc => (hexDigits_facts c (hhex c hc)).1
    have hhash : ∀ c ∈ p, (c == '#') = false :=
      fun c hc => (hexDigits_facts c (hhex c hc)).2.1
    have h1 : pyLstripHash (pyStrip p) = p := by
      rw [pyStrip_eq_self hws]
      exact pyLstripHash_eq_self hhash
    have hupper : ∀ (l : List Char), (∀ c ∈ l, c ∈ p) →
        ∀ c ∈ l.map Char.toUpper, c ∈ upperHexDigits := by
      intro l hl c hc
      obtain ⟨d, hd, rfl⟩ := List.mem_map.mp hc
      exact (hexDigits_facts d (hhex d (hl d hd))).2.2
    rcases hlen with h3 | h6
    · refine ⟨(doubleChars p).map Char.toUpper, ?_, ?_, ?_⟩
      · simp only [normalizeColorChars, h1, h3]
        norm_num
      · rw [List.length_map, doubleChars_length, h3]
      · exact hupper (doubleChars p) (fun c hc => mem_doubleChars hc)
    · refine ⟨p.map Char.toUpper, ?_, ?_, ?_⟩
      · simp only [normalizeColorChars, h1, h6]
        norm_num
      · rw [List.length_map, h6]
      · exact hupper p (fun c hc => hc)

/-- Witness for C9: the hex-normalization clause applied to the
lowercase 6-hex-digit part `"4d92fb"`. -/
theorem C9_line_colors_amended_witness :
    ∃ rest, normalizeColorChars "4d92fb".toList = '#' :: rest ∧
      rest.length = 6 ∧ ∀ c ∈ rest, c ∈ upperHexDigits :=
  C9_line_colors_amended.2.2.2.2.2 "4d92fb".toList
    (by decide) (Or.inr (by decide))

/-! ### Claim C1 -/

/-- C1: for every display state and current time, the evaluator marks
the display stale exactly when the last fetch failed, or the last
successful fetch is older than the effective TTL (vacuously when there
has never been one), or the snapshot is absent or empty, or the
unchanged-poll count reaches its threshold, or the consecutive failure
count reaches its threshold. -/
theorem C1_staleness_disjunction (cfg : AppConfig) (s : DisplayState) (now : Time) :
    is_stale cfg s now = true ↔ specIsStale cfg s now := by
  obtain ⟨data, ok, lastFetch, lsig, up, cf⟩ := s
  unfold is_stale specIsStale staleDueAge hasMessages
  cases data with
  | none =>
    cases lastFetch with
    | none => cases ok <;> simp
    | some t => cases ok <;> simp
  | some d =>
    cases lastFetch with
    | none => cases ok <;> simp [List.isEmpty_iff]
    | some t => cases ok <;> (simp [List.isEmpty_iff]; try tauto)

/-- Witness for C1: the equivalence at the initial display state. -/
theorem C1_staleness_disjunction_witness :
    is_stale defaultConfig initialDisplayState 0 = true ↔
      specIsStale defaultConfig initialDisplayState 0 :=
  C1_staleness_disjunction defaultConfig initialDisplayState 0

/-! ### Claim C2 -/

/-- C2: on success the next delay is `max 5 (base × (1 + u))` with the
jitter factor `1 + u` lying in `[1 − jitter_ratio, 1 + jitter_ratio]`;
the base is the background interval for an empty snapshot, the
aggressive interval when the soonest arrival is below the aggressive
threshold, the relaxed interval above the relaxed threshold, and the
baseline interval in between; with `aggressive_threshold_seconds = 300`
and soonest `120` the base is `poll_aggressive_seconds`. -/
theorem C2_next_delay_characterization (cfg : AppConfig) (data : StationData)
    (u : ℚ) (hu1 : -cfg.jitter_ratio ≤ u) (hu2 : u ≤ cfg.jitter_ratio) :
    (1 - cfg.jitter_ratio ≤ 1 + u ∧ 1 + u ≤ 1 + cfg.jitter_ratio)
    ∧ next_delay cfg data u = max 5 ((next_delay_base cfg data : ℚ) * (1 + u))
    ∧ 5 ≤ next_delay cfg data u
    ∧ (data.messages = [] → next_delay_base cfg data = cfg.poll_background_seconds)
    ∧ (∀ sn, soonestOf data.messages = some sn →
        (sn < cfg.aggressive_threshold_seconds →
          next_delay_base cfg data = cfg.poll_aggressive_seconds)
        ∧ (cfg.aggressive_threshold_seconds ≤ sn →
           cfg.relaxed_threshold_seconds < sn →
          next_delay_base cfg data = cfg.poll_relaxed_seconds)
        ∧ (cfg.aggressive_threshold_seconds ≤ sn →
           sn ≤ cfg.relaxed_threshold_seconds →
          next_delay_base cfg data = cfg.poll_baseline_seconds))
    ∧ (cfg.aggressive_threshold_seconds = 300 →
        soonestOf data.messages = some 120 →
        next_delay_base cfg data = cfg.poll_aggressive_seconds) := by
  refine ⟨⟨by linarith, by linarith⟩, rfl, le_max_left 5 _, ?_, ?_, ?_⟩
  · intro h
    unfold next_delay_base
    rw [show soonestOf data.messages = none from by rw [h]; rfl]
  · intro sn hsn
    refine ⟨?_, ?_, ?_⟩
    · intro hlt
      unfold next_delay_base
      rw [hsn]
      simp [hlt]
    · intro hge hgt
      unfold next_delay_base
      simp only [hsn]
      rw [if_neg (not_lt.mpr hge), if_pos hgt]
    · intro hge hle
      unfold next_delay_base
      simp only [hsn]
      rw [if_neg (not_lt.mpr hge), if_neg (not_lt.mpr hle)]
  · intro h300 hsn
    unfold next_delay_base
    rw [hsn, h300]
    norm_num

/-- Witness for C2: the scenario clause and the 5-second floor at the
default configuration, the soonest-120 snapshot and jitter sample 0. -/
theorem C2_next_delay_characterization_witness :
    next_delay_base defaultConfig snapWTC = defaultConfig.poll_aggressive_seconds ∧
      5 ≤ next_delay defaultConfig snapWTC 0 :=
  ⟨(C2_next_delay_characterization defaultConfig snapWTC 0
      (by norm_num [defaultConfig]) (by norm_num [defaultConfig])).2.2.2.2.2
      (by decide) (by decide),
   (C2_next_delay_characterization defaultConfig snapWTC 0
      (by norm_num [defaultConfig]) (by norm_num [defaultConfig])).2.2.1⟩

/-! ### Claim C3 -/

/-- C3: on every failure the slept delay is `min 60 backoff` (after the
floor of 5) and the backoff becomes `min 60 (backoff × 2)`; every delay
of a failure run is at most 60; from backoff 5 the delays are
5, 10, 20, 40, 60, 60, 60. -/
theorem C3_failure_backoff :
    (∀ b, (failureStep b).1 ≤ 60)
    ∧ (∀ n b, ∀ d ∈ failureDelays n b, d ≤ 60)
    ∧ (∀ b, 5 ≤ b →
        (failureStep b).1 = min 60 b ∧ (failureStep b).2 = min 60 (b * 2))
    ∧ failureDelays 7 5 = [5, 10, 20, 40, 60, 60, 60] := by
  have h1 : ∀ b, (failureStep b).1 ≤ 60 := fun b => min_le_left 60 _
  refine ⟨h1, ?_, ?_, by decide⟩
  · intro n
    induction n with
    | zero =>
      intro b d hd
      simp [failureDelays] at hd
    | succ k ih =>
      intro b d hd
      rw [failureDelays] at hd
      rcases List.mem_cons.mp hd with rfl | hd
      · exact h1 b
      · exact ih _ d hd
  · intro b hb
    have hnb : ¬ b < 5 := by omega
    constructor <;> simp [failureStep, hnb]

/-- Witness for C3: the characterization clause at backoff 5. -/
theorem C3_failure_backoff_witness :
    (failureStep 5).1 = min 60 5 ∧ (failureStep 5).2 = min 60 (5 * 2) :=
  C3_failure_backoff.2.2.1 5 (by norm_num)

/-! ### Claim C4 -/

/-- C4 counterexample: under the default configuration the success
branch stores `poll_baseline_seconds = 30`, not the claimed minimum 5,
and a failure immediately after a success sleeps 30 seconds, not 5. -/
theorem C4_counterexample :
    successBackoff defaultConfig = 30 ∧ successBackoff defaultConfig ≠ 5 ∧
      (failureStep (successBackoff defaultConfig)).1 = 30 ∧
      (failureStep (successBackoff defaultConfig)).1 ≠ 5 := by decide

/-- C4 (amended): after every successful fetch the backoff counter is
reset to the configured baseline poll interval, so a failure
immediately following a success sleeps `min 60 (max baseline 5)`
seconds — 30 with the default configuration. -/
theorem C4_success_reset_amended (cfg : AppConfig) :
    successBackoff cfg = cfg.poll_baseline_seconds ∧
      (failureStep (successBackoff cfg)).1 =
        min 60 (max cfg.poll_baseline_seconds 5) := by
  refine ⟨rfl, ?_⟩
  by_cases h : cfg.poll_baseline_seconds < 5
  · have hm : max cfg.poll_baseline_seconds 5 = 5 := Nat.max_eq_right (by omega)
    simp [failureStep, successBackoff, h, hm]
  · have hm : max cfg.poll_baseline_seconds 5 = cfg.poll_baseline_seconds :=
      Nat.max_eq_left (by omega)
    simp [failureStep, successBackoff, h, hm]

/-- Witness for C4: the amended statement at the default configuration. -/
theorem C4_success_reset_amended_witness :
    successBackoff defaultConfig = defaultConfig.poll_baseline_seconds ∧
      (failureStep (successBackoff defaultConfig)).1 =
        min 60 (max defaultConfig.poll_baseline_seconds 5) :=
  C4_success_reset_amended defaultConfig

/-! ### Claim C5 -/

/-- C5 counterexample: with baseline TTL 45 and baseline poll interval
40 (so `⌊1.5 × 40⌋ = 60`), an absent snapshot keeps the effective TTL
at 45 — the code does not widen it to 60 as the claim's "including the
case where the snapshot is absent or has no messages" requires. -/
theorem C5_counterexample :
    effectiveTTL cfgWide none = 45 ∧ specEffectiveTTL cfgWide none = 60 ∧
      effectiveTTL cfgWide none ≠ specEffectiveTTL cfgWide none := by decide

/-- C5 (amended): the effective TTL starts from the baseline TTL; when
the snapshot has messages and the soonest arrival is under the
aggressive threshold it becomes the aggressive TTL; when the snapshot
has messages and the soonest arrival is at or above the threshold it is
widened to at least `⌊1.5 × baseline poll interval⌋`; when the snapshot
is absent or has no messages it stays at the baseline TTL. -/
theorem C5_effective_ttl_amended (cfg : AppConfig) (data : Option StationData) :
    (data = none → effectiveTTL cfg data = cfg.ttl_seconds)
    ∧ (∀ d, data = some d → d.messages = [] →
        effectiveTTL cfg data = cfg.ttl_seconds)
    ∧ (∀ d sn, data = some d → soonestOf d.messages = some sn →
        sn < cfg.aggressive_threshold_seconds →
        effectiveTTL cfg data = cfg.ttl_aggressive_seconds)
    ∧ (∀ d sn, data = some d → soonestOf d.messages = some sn →
        cfg.aggressive_threshold_seconds ≤ sn →
        effectiveTTL cfg data =
          max cfg.ttl_seconds (3 * cfg.poll_baseline_seconds / 2)) := by
  refine ⟨?_, ?_, ?_, ?_⟩
  · rintro rfl
    rfl
  · rintro d rfl hd
    simp [effectiveTTL, hd, soonestOf]
  · rintro d sn rfl hsn hlt
    simp only [effectiveTTL]
    rw [hsn]
    simp [hlt]
  · rintro d sn rfl hsn hge
    simp only [effectiveTTL]
    rw [hsn]
    simp [not_lt.mpr hge]

/-- Witness for C5: the absent-snapshot clause at the default
configuration. -/
theorem C5_effective_ttl_amended_witness :
    effectiveTTL defaultConfig none = defaultConfig.ttl_seconds :=
  (C5_effective_ttl_amended defaultConfig none).1 rfl

/-! ### Claim C6 -/

/-- C6 counterexample: three consecutive successful fetches of an
identical snapshot leave the unchanged counter at 2 (the first fetch
stores the fingerprint, only the second and third match it), so with
`stale_no_change_polls = 3` the display is still live after the third
fetch — not stale as the claim's scenario states. -/
theorem C6_counterexample :
    (on_data_received (on_data_received (on_data_received initialDisplayState
        snapWTC 0) snapWTC 10) snapWTC 20).unchanged_polls = 2
    ∧ is_stale defaultConfig
        (on_data_received (on_data_received (on_data_received initialDisplayState
          snapWTC 0) snapWTC 10) snapWTC 20) 20 = false := by decide

/-- C6 (amended): after each successful fetch the fingerprint over the
ordered (headsign, target, seconds, phrase, colors) tuples is compared
with the stored one — a match increments the unchanged counter, a
mismatch resets it to zero and stores the new fingerprint; with
`stale_no_change_polls = 3`, consecutive identical fetches make
`is_stale` true on the 4th fetch (the counter reaches 3 only then). -/
theorem C6_fingerprint_amended (s : DisplayState) (data : StationData) (now : Time) :
    (s.last_signature = some (build_signature (some data)) →
      (on_data_received s data now).unchanged_polls = s.unchanged_polls + 1 ∧
      (on_data_received s data now).last_signature = s.last_signature)
    ∧ (s.last_signature ≠ some (build_signature (some data)) →
      (on_data_received s data now).unchanged_polls = 0 ∧
      (on_data_received s data now).last_signature =
        some (build_signature (some data)))
    ∧ (on_data_received (on_data_received (on_data_received (on_data_received
        initialDisplayState snapWTC 0) snapWTC 10) snapWTC 20) snapWTC 30).unchanged_polls
        = 3
    ∧ is_stale defaultConfig
        (on_data_received (on_data_received (on_data_received (on_data_received
          initialDisplayState snapWTC 0) snapWTC 10) snapWTC 20) snapWTC 30) 30
        = true := by
  refine ⟨?_, ?_, by decide, by decide⟩
  · intro h
    simp [on_data_received, h]
  · intro h
    simp [on_data_received, h]

/-- Witness for C6: the increment clause at a state whose stored
fingerprint matches the incoming snapshot. -/
theorem C6_fingerprint_amended_witness :
    (on_data_received (on_data_received initialDisplayState snapWTC 0)
        snapWTC 10).unchanged_polls =
      (on_data_received initialDisplayState snapWTC 0).unchanged_polls + 1 :=
  ((C6_fingerprint_amended (on_data_received initialDisplayState snapWTC 0)
      snapWTC 10).1 (by decide)).1

/-! ### Claim C10 -/

/-- C10: a fetch failure mutates only the last-fetch-outcome flag and
the consecutive failure count; the latest snapshot, the last successful
fetch timestamp, the unchanged-poll count and the stored fingerprint
all survive unchanged. -/
theorem C10_failure_frame (s : DisplayState) (e : String) :
    (on_fetch_failed s e).latest_data = s.latest_data
    ∧ (on_fetch_failed s e).last_successful_fetch = s.last_successful_fetch
    ∧ (on_fetch_failed s e).unchanged_polls = s.unchanged_polls
    ∧ (on_fetch_failed s e).last_signature = s.last_signature
    ∧ (on_fetch_failed s e).last_fetch_ok = false
    ∧ (on_fetch_failed s e).consecutive_failures = s.consecutive_failures + 1 :=
  ⟨rfl, rfl, rfl, rfl, rfl, rfl⟩

/-- Witness for C10: the frame condition at the initial state. -/
theorem C10_failure_frame_witness :
    (on_fetch_failed initialDisplayState "timeout").latest_data =
        initialDisplayState.latest_data
    ∧ (on_fetch_failed initialDisplayState "timeout").last_successful_fetch =
        initialDisplayState.last_successful_fetch
    ∧ (on_fetch_failed initialDisplayState "timeout").unchanged_polls =
        initialDisplayState.unchanged_polls
    ∧ (on_fetch_failed initialDisplayState "timeout").last_signature =
        initialDisplayState.last_signature
    ∧ (on_fetch_failed initialDisplayState "timeout").last_fetch_ok = false
    ∧ (on_fetch_failed initialDisplayState "timeout").consecutive_failures =
        initialDisplayState.consecutive_failures + 1 :=
  C10_failure_frame initialDisplayState "timeout"
